import Mathlib

/-!
Shallow embedding of the azure-iot-manager management HTTP gateway.

Sources embedded:
- `model/settings.go`: the `Settings` type and its `Validate` method built on
  `validation.Length(0, 2048)` (ozzo-validation measures the byte length of a
  string, via `reflect.Value.Len`).
- the router file (`NewRouter`, `APIHandler.Alive`, `APIHandler.Health`,
  `APIHandler.NoRoute`, `validateValidatableValidator`, the `init` that
  registers it as `binding.Validator`, `defaultTimeout`).
- `api/http/management_test.go` pins the behaviour of the management handlers
  (status codes, the 403 envelope, the fixed 500 message matching
  "Internal Server Error", the 400 "malformed request body" message).

The management handler file itself (`NewManagementHandler`, `GetSettings`,
`SetSettings`, the device-twin handlers, `ErrMissingUserAuthentication`) is not
part of the visible sources; those definitions are modelled from the spec and
are marked as such in their doc comments.  The same holds for the identity and
request-id middlewares, which live in an external support library.

Effects are made explicit: a handler produces an `Outcome` holding the HTTP
response, the list of backend calls it performed, and the log lines it emitted.
-/

set_option maxRecDepth 10000

/-- Decoded identity claims of the inbound token (type `identity.Identity`):
tenant id, subject id and the two capability flags. -/
structure Identity where
  subject : String
  tenant : String
  isUser : Bool
  isDevice : Bool
deriving DecidableEq

/-- `model.Settings`: the per-tenant settings document with its single
`connection_string` field. -/
structure Settings where
  connectionString : String
deriving DecidableEq

/-- `ruleLenLte2048 = validation.Length(0, 2048)` from `model/settings.go`.
ozzo-validation's `Length` measures `reflect.Value.Len()` of the string, which
is its UTF-8 byte length; with `min = 0` the failure message is
"the length must be no more than {max}".  An empty value is skipped by the
rule, which coincides with the length test when `min = 0`. -/
def ruleLenLte2048 (value : String) : Option String :=
  if value.utf8ByteSize ≤ 2048 then none
  else some "the length must be no more than 2048"

/-- `Settings.Validate` from `model/settings.go`: `validation.ValidateStruct`
over the single field, labelling a failure with the field's json tag and the
trailing period that `validation.Errors.Error()` appends. -/
def Settings.validate (s : Settings) : Option String :=
  match ruleLenLte2048 s.connectionString with
  | none => none
  | some msg => some ("connection_string: " ++ msg ++ ".")

/-- A payload value as seen by the binding layer: Go's type assertion
`obj.(interface{ Validate() error })` either finds the value's own `Validate`
method or does not. -/
structure BoundObject where
  selfValidate : Option (Unit → Option String)

/-- `validateValidatableValidator.ValidateStruct` from the router file: if the
bound object provides its own `Validate() error`, call it; otherwise return
nil. -/
def validateValidatableValidator.ValidateStruct (obj : BoundObject) : Option String :=
  match obj.selfValidate with
  | some v => v ()
  | none => none

/-- `validateValidatableValidator.Engine` from the router file: returns nil —
there is no underlying generic validation engine. -/
def validateValidatableValidator.Engine : Option Unit :=
  none

/-- The `init()` in the router file registers the validator process-wide:
`binding.Validator = validateValidatableValidator{}`. -/
def bindingValidator : BoundObject → Option String :=
  validateValidatableValidator.ValidateStruct

/-- A `Settings` value seen by the binding layer: the type assertion finds
`Settings.Validate`. -/
def boundSettings (s : Settings) : BoundObject :=
  ⟨some fun _ => s.validate⟩

/-- Response bodies the gateway writes: empty (204), a Settings document,
opaque device data, the `rest.Error{Err, RequestID}` envelope, or the
request-id-less `gin.H{"error": ...}` object written by `Health`. -/
inductive Body where
  | empty
  | settingsBody (s : Settings)
  | deviceData (payload : String)
  | errorEnvelope (err : String) (requestId : String)
  | errorOnly (err : String)
deriving DecidableEq

/-- Whether a response body carries a `request_id` field. -/
def Body.hasRequestId : Body → Bool
  | .errorEnvelope _ _ => true
  | _ => false

/-- The `request_id` field of a response body, when present. -/
def Body.requestIdOf : Body → Option String
  | .errorEnvelope _ rid => some rid
  | _ => none

/-- An HTTP response: status code and body. -/
structure Response where
  status : Nat
  body : Body
deriving DecidableEq

/-- One invocation of the backend service interface (`app.App`), with its
arguments. -/
inductive BackendCall where
  | healthCheck
  | getSettings (tenant : String)
  | setSettings (tenant : String) (s : Settings)
  | deviceOp (opName : String) (tenant : String) (deviceId : String)
  | deviceWriteOp (opName : String) (tenant : String) (deviceId : String) (payload : String)
deriving DecidableEq

/-- What one request produces: the response, the backend calls performed, and
the log lines emitted. -/
structure Outcome where
  resp : Response
  calls : List BackendCall
  logs : List String
deriving DecidableEq

/-- The backend service interface (`app.App`) as a result oracle: each
operation either succeeds or yields an error message.  `getSettings` and the
device operations return `Except`, `healthCheck` and `setSettings` return an
optional error.  Device reads take `(opName, tenant, deviceId)`, device writes
additionally take the bound payload. -/
structure App where
  healthCheck : Option String
  getSettings : String → Except String Settings
  setSettings : String → Settings → Option String
  deviceRead : String → String → String → Except String String
  deviceWrite : String → String → String → String → Except String String

/-- `defaultTimeout` from the router file, in seconds: the bound put on the
backend `HealthCheck` call. -/
def defaultTimeout : Nat := 10

/-- Modelled from the spec: the fixed 403 message of the missing management
handler file's `ErrMissingUserAuthentication`, as written in the spec's
scenario `body {error:"missing user authentication", ...}`. -/
def ErrMissingUserAuthentication : String := "missing user authentication"

/-- `http.StatusText(http.StatusInternalServerError)`: the fixed message the
management handlers render on a backend error, pinned by the test
`TestSetSettings/"internal error"` whose expected message regexp is this
status text. -/
def internalServerErrorText : String := "Internal Server Error"

/-- Modelled from the spec: the request-id middleware of the support library.
The correlation id is the inbound correlation header when one was supplied and
a generated one otherwise. -/
def resolveRequestId (inbound : Option String) (generated : String) : String :=
  inbound.getD generated

/-- `APIHandler.Alive`: always 204, no backend call. -/
def Alive : Outcome :=
  ⟨⟨204, .empty⟩, [], []⟩

/-- `APIHandler.Health`: calls `app.HealthCheck` (under `defaultTimeout`); on
success writes 204 with no body; on failure logs the wrapped error and writes
503 with `gin.H{"error": err.Error()}` — an object without a request id. -/
def Health (app : App) : Outcome :=
  match app.healthCheck with
  | none => ⟨⟨204, .empty⟩, [.healthCheck], []⟩
  | some e => ⟨⟨503, .errorOnly e⟩, [.healthCheck], ["health check failed: " ++ e]⟩

/-- `APIHandler.NoRoute`: 404 with `rest.Error{Err: "not found", RequestID}`. -/
def NoRoute (rid : String) : Outcome :=
  ⟨⟨404, .errorEnvelope "not found" rid⟩, [], []⟩

/-- Modelled from the spec: the 403 outcome every management handler produces
for a caller without `isUser == true` — the fixed message and the request's
correlation id, no backend call. -/
def forbidden (rid : String) : Outcome :=
  ⟨⟨403, .errorEnvelope ErrMissingUserAuthentication rid⟩, [], []⟩

/-- A request body as seen after transport decoding: absent, not decodable
into the payload type, a decoded `Settings` document, or a decoded device-twin
document (kept opaque — twin state lives entirely in the external backend). -/
inductive ReqBody where
  | noBody
  | malformed
  | settingsBody (s : Settings)
  | devicePayload (payload : String)
deriving DecidableEq

/-- Modelled from the spec: `ShouldBindJSON` into `model.Settings` — JSON
decoding followed by the registered validator (which dispatches to
`Settings.Validate`).  A missing or undecodable body is a binding error. -/
def bindSettings : ReqBody → Except String Settings
  | .settingsBody s =>
    match bindingValidator (boundSettings s) with
    | none => .ok s
    | some e => .error e
  | _ => .error "invalid request"

/-- Modelled from the spec: the missing `ManagementHandler.GetSettings` —
authorize, call backend `GetSettings(tenant)`, 200 with the Settings JSON on
success, 500 with the fixed status text on backend error. -/
def GetSettings (app : App) (id : Identity) (rid : String) : Outcome :=
  if id.isUser then
    match app.getSettings id.tenant with
    | .ok s => ⟨⟨200, .settingsBody s⟩, [.getSettings id.tenant], []⟩
    | .error _ => ⟨⟨500, .errorEnvelope internalServerErrorText rid⟩, [.getSettings id.tenant], []⟩
  else forbidden rid

/-- Modelled from the spec: the missing `ManagementHandler.SetSettings` —
authorize, bind+validate the Settings body (400 wrapping the binder or
validator message as "malformed request body: ..." on failure, before any
backend call), call backend `SetSettings(tenant, settings)`, 204 on success,
500 with the fixed status text on backend error. -/
def SetSettings (app : App) (id : Identity) (rid : String) (body : ReqBody) : Outcome :=
  if id.isUser then
    match bindSettings body with
    | .error e => ⟨⟨400, .errorEnvelope ("malformed request body: " ++ e) rid⟩, [], []⟩
    | .ok s =>
      match app.setSettings id.tenant s with
      | none => ⟨⟨204, .empty⟩, [.setSettings id.tenant s], []⟩
      | some _ => ⟨⟨500, .errorEnvelope internalServerErrorText rid⟩, [.setSettings id.tenant s], []⟩
  else forbidden rid

/-- Modelled from the spec: the device-twin document decoded from a
device-write body.  The twin payload type supplies no `Validate() error`
method, so the registered validator passes it unconditionally; only a missing
or undecodable body is a binding error. -/
def bindDeviceTwin : ReqBody → Except String String
  | .devicePayload p =>
    match bindingValidator ⟨none⟩ with
    | none => .ok p
    | some e => .error e
  | _ => .error "invalid request"

/-- Modelled from the spec: the shape shared by the missing device read
handlers — authorize, extract the device id, call the corresponding backend
operation with `(tenant, deviceId)`, map the result to 200 or a 500 with the
fixed status text. -/
def deviceHandler (app : App) (opName : String) (id : Identity) (rid : String)
    (deviceId : String) : Outcome :=
  if id.isUser then
    match app.deviceRead opName id.tenant deviceId with
    | .ok payload => ⟨⟨200, .deviceData payload⟩, [.deviceOp opName id.tenant deviceId], []⟩
    | .error _ => ⟨⟨500, .errorEnvelope internalServerErrorText rid⟩, [.deviceOp opName id.tenant deviceId], []⟩
  else forbidden rid

/-- Modelled from the spec: the shape shared by the missing device write
handlers — authorize, extract the device id, bind+validate the body (400
wrapping the binder message on failure, before any backend call), call the
corresponding backend operation with `(tenant, deviceId, payload)`, map the
result to 200 or a 500 with the fixed status text. -/
def deviceWriteHandler (app : App) (opName : String) (id : Identity) (rid : String)
    (deviceId : String) (body : ReqBody) : Outcome :=
  if id.isUser then
    match bindDeviceTwin body with
    | .error e => ⟨⟨400, .errorEnvelope ("malformed request body: " ++ e) rid⟩, [], []⟩
    | .ok p =>
      match app.deviceWrite opName id.tenant deviceId p with
      | .ok payload =>
        ⟨⟨200, .deviceData payload⟩, [.deviceWriteOp opName id.tenant deviceId p], []⟩
      | .error _ =>
        ⟨⟨500, .errorEnvelope internalServerErrorText rid⟩,
          [.deviceWriteOp opName id.tenant deviceId p], []⟩
  else forbidden rid

/-- Modelled from the spec: `ManagementHandler.GetDeviceTwin`. -/
def GetDeviceTwin (app : App) (id : Identity) (rid deviceId : String) : Outcome :=
  deviceHandler app "GetDeviceTwin" id rid deviceId

/-- Modelled from the spec: `ManagementHandler.SetDeviceTwin` — a write, so the
body is bound and validated after authorization. -/
def SetDeviceTwin (app : App) (id : Identity) (rid deviceId : String)
    (body : ReqBody) : Outcome :=
  deviceWriteHandler app "SetDeviceTwin" id rid deviceId body

/-- Modelled from the spec: `ManagementHandler.UpdateDeviceTwin` — a write, so
the body is bound and validated after authorization. -/
def UpdateDeviceTwin (app : App) (id : Identity) (rid deviceId : String)
    (body : ReqBody) : Outcome :=
  deviceWriteHandler app "UpdateDeviceTwin" id rid deviceId body

/-- Modelled from the spec: `ManagementHandler.GetDeviceModules`. -/
def GetDeviceModules (app : App) (id : Identity) (rid deviceId : String) : Outcome :=
  deviceHandler app "GetDeviceModules" id rid deviceId

/-- Modelled from the spec: `ManagementHandler.GetDevice`. -/
def GetDevice (app : App) (id : Identity) (rid deviceId : String) : Outcome :=
  deviceHandler app "GetDevice" id rid deviceId

/-- The management routes registered by `NewRouter` under
`/api/management/v1/azure-iot-manager`. -/
inductive MgmtRoute where
  | getSettingsR
  | setSettingsR
  | getDeviceTwinR
  | setDeviceTwinR
  | updateDeviceTwinR
  | getDeviceModulesR
  | getDeviceR
deriving DecidableEq

/-- Dispatch of an authenticated management request to its handler, following
the route registrations in `NewRouter`. -/
def mgmtDispatch (app : App) (r : MgmtRoute) (id : Identity) (rid : String)
    (body : ReqBody) (deviceId : String) : Outcome :=
  match r with
  | .getSettingsR => GetSettings app id rid
  | .setSettingsR => SetSettings app id rid body
  | .getDeviceTwinR => GetDeviceTwin app id rid deviceId
  | .setDeviceTwinR => SetDeviceTwin app id rid deviceId body
  | .updateDeviceTwinR => UpdateDeviceTwin app id rid deviceId body
  | .getDeviceModulesR => GetDeviceModules app id rid deviceId
  | .getDeviceR => GetDevice app id rid deviceId

/-- The possible results of inspecting the `Authorization` header: no header,
a token that does not decode into an Identity, or a decoded Identity. -/
inductive AuthResult where
  | noHeader
  | badToken
  | ident (id : Identity)

/-- Modelled from the spec: the 401 outcome the identity middleware writes
when it aborts a request — the standard envelope with the correlation id, no
backend call, before any handler runs. -/
def unauthorizedOutcome (rid : String) : Outcome :=
  ⟨⟨401, .errorEnvelope "missing or invalid authorization header" rid⟩, [], []⟩

/-- Modelled from the spec: the identity-extraction middleware installed on the
management group by `NewRouter`.  A missing header or an undecodable token
aborts with 401 before the wrapped handler runs; otherwise the decoded
Identity is handed to the handler. -/
def identityMiddleware (rid : String) (auth : AuthResult)
    (next : Identity → Outcome) : Outcome :=
  match auth with
  | .ident id => next id
  | .noHeader => unauthorizedOutcome rid
  | .badToken => unauthorizedOutcome rid

/-- A management request as served by `NewRouter`: the identity middleware in
front of the route's handler. -/
def handleManagementRoute (app : App) (r : MgmtRoute) (auth : AuthResult)
    (rid : String) (body : ReqBody) (deviceId : String) : Outcome :=
  identityMiddleware rid auth (fun id => mgmtDispatch app r id rid body deviceId)

/-- Top-level routes of the gateway as grouped by `NewRouter`. -/
inductive GatewayRoute where
  | alive
  | health
  | mgmt (r : MgmtRoute)
  | unmatched
deriving DecidableEq

/-- From `NewRouter`: only the management group is wrapped in
`identity.Middleware()`; the internal liveness and health routes and the
NoRoute handler are not. -/
def routeUsesIdentityMiddleware : GatewayRoute → Bool
  | .mgmt _ => true
  | _ => false

/-- Modelled from the spec: the app layer over the per-tenant settings store —
absence of a stored value is not an error, the backend returns the zero-value
Settings document for an untouched tenant. -/
def appOfStore (store : String → Option Settings) (base : App) : App :=
  { base with getSettings := fun tenant => .ok ((store tenant).getD ⟨""⟩) }

/-- A user-capable identity used by concrete evaluations. -/
def idUser : Identity :=
  ⟨"829cbefb-70e7-438f-9ac5-35fd131c2111", "123456789012345678901234", true, false⟩

/-- A backend whose every operation succeeds. -/
def appAllOk : App :=
  ⟨none, fun _ => .ok ⟨""⟩, fun _ _ => none, fun _ _ _ => .ok "", fun _ _ _ _ => .ok ""⟩

/-- A backend whose `SetSettings` fails with the message "internal error", as
in the test `TestSetSettings/"internal error"`. -/
def appSetErr : App :=
  ⟨none, fun _ => .ok ⟨""⟩, fun _ _ => some "internal error", fun _ _ _ => .ok "",
    fun _ _ _ _ => .ok ""⟩

/-- A backend whose every management operation fails. -/
def appBothErr : App :=
  ⟨none, fun _ => .error "backend down", fun _ _ => some "internal error",
    fun _ _ _ => .error "backend down", fun _ _ _ _ => .error "backend down"⟩

/-- A backend whose health check fails with the message "error", as in the
test `TestHealth/"ko"`. -/
def appHealthErr : App :=
  ⟨some "error", fun _ => .ok ⟨""⟩, fun _ _ => none, fun _ _ _ => .ok "",
    fun _ _ _ _ => .ok ""⟩

/-- A per-route request body whose binding succeeds: a Settings document for
the settings write, a decoded twin document for the twin writes, nothing for
the reads (whose handlers take no body). -/
def boundBodyFor (r : MgmtRoute) (s : Settings) (p : String) : ReqBody :=
  match r with
  | .setSettingsR => .settingsBody s
  | .setDeviceTwinR => .devicePayload p
  | .updateDeviceTwinR => .devicePayload p
  | _ => .noBody

/-- A settings document whose connection string is 683 euro-sign characters:
683 characters but 2049 UTF-8 bytes. -/
def multibyteSettings : Settings :=
  ⟨String.mk (List.replicate 683 '€')⟩

/-- A connection string of 2049 ASCII characters (and bytes). -/
def longAsciiSettings : Settings :=
  ⟨String.mk (List.replicate 2049 'a')⟩

/-- Every character occupies at least one UTF-8 byte, so a string has at least
as many bytes as characters. -/
theorem utf8ByteSize_go_ge (cs : List Char) : cs.length ≤ String.utf8ByteSize.go cs := by
  induction cs with
  | nil => simp [String.utf8ByteSize.go]
  | cons c cs ih =>
    have h1 : 0 < c.utf8Size := Char.utf8Size_pos c
    simp only [String.utf8ByteSize.go, List.length_cons]
    omega

/-- The character count of a string never exceeds its UTF-8 byte length. -/
theorem length_le_utf8ByteSize (s : String) : s.length ≤ s.utf8ByteSize := by
  cases s with
  | mk data => simpa [String.utf8ByteSize, String.length] using utf8ByteSize_go_ge data

/-- C1: a management request whose decoded Identity does not have
`isUser = true` is answered 403 with the fixed message and the request's
correlation id, on every management route, regardless of the payload, with no
backend call. -/
theorem mgmt_not_user_forbidden (app : App) (r : MgmtRoute) (id : Identity)
    (inbound : Option String) (gen : String) (body : ReqBody) (deviceId : String)
    (h : id.isUser = false) :
    mgmtDispatch app r id (resolveRequestId inbound gen) body deviceId =
      ⟨⟨403, .errorEnvelope ErrMissingUserAuthentication (resolveRequestId inbound gen)⟩,
        [], []⟩ := by
  cases r <;>
    simp [mgmtDispatch, GetSettings, SetSettings, GetDeviceTwin, SetDeviceTwin,
      UpdateDeviceTwin, GetDeviceModules, GetDevice, deviceHandler,
      deviceWriteHandler, forbidden, h]

/-- Evaluation of `mgmt_not_user_forbidden` at the device identity of the test
`TestGetSettings/"error, invalid authorization header"`. -/
theorem mgmt_not_user_forbidden_witness :
    (Identity.mk "829cbefb-70e7-438f-9ac5-35fd131c2f76" "123456789012345678901234"
        false true).isUser = false ∧
    mgmtDispatch appAllOk .getSettingsR
        (Identity.mk "829cbefb-70e7-438f-9ac5-35fd131c2f76" "123456789012345678901234"
          false true)
        (resolveRequestId (some "829cbefb-70e7-438f-9ac5-35fd131c2111") "generated")
        .noBody "dev" =
      ⟨⟨403, .errorEnvelope ErrMissingUserAuthentication
        (resolveRequestId (some "829cbefb-70e7-438f-9ac5-35fd131c2111") "generated")⟩,
        [], []⟩ :=
  ⟨rfl, mgmt_not_user_forbidden appAllOk .getSettingsR _ _ _ _ _ rfl⟩

/-- C2: an authorized `PUT /settings` whose `connection_string` is longer than
2048 characters is answered 400 with a message indicating a malformed request
body, and the backend `SetSettings` is never invoked — `Settings.Validate`
rejects the payload (its byte length is at least its character count) before
any backend call. -/
theorem setSettings_long_rejected (app : App) (id : Identity)
    (inbound : Option String) (gen : String) (s : Settings)
    (hu : id.isUser = true) (hl : 2048 < s.connectionString.length) :
    SetSettings app id (resolveRequestId inbound gen) (.settingsBody s) =
      ⟨⟨400, .errorEnvelope
          ("malformed request body: connection_string: the length must be no more than 2048.")
          (resolveRequestId inbound gen)⟩, [], []⟩ := by
  have hb : ¬ s.connectionString.utf8ByteSize ≤ 2048 := by
    have := length_le_utf8ByteSize s.connectionString
    omega
  simp [SetSettings, bindSettings, bindingValidator,
    validateValidatableValidator.ValidateStruct, boundSettings, Settings.validate,
    ruleLenLte2048, hu, hb]

/-- Evaluation of `setSettings_long_rejected` on a 2049-character connection
string, as in the test `TestSetSettings/"settings string too long"`. -/
theorem setSettings_long_rejected_witness :
    idUser.isUser = true ∧
    2048 < longAsciiSettings.connectionString.length ∧
    SetSettings appAllOk idUser (resolveRequestId none "generated")
        (.settingsBody longAsciiSettings) =
      ⟨⟨400, .errorEnvelope
          ("malformed request body: connection_string: the length must be no more than 2048.")
          (resolveRequestId none "generated")⟩, [], []⟩ :=
  ⟨rfl, by simp [longAsciiSettings, String.length],
    setSettings_long_rejected appAllOk idUser none "generated" longAsciiSettings rfl
      (by simp [longAsciiSettings, String.length])⟩

/-- C3 counterexample: with the backend `SetSettings` failing with the message
"internal error" (the scenario of `TestSetSettings/"internal error"`), the 500
envelope's message is the fixed status text "Internal Server Error", which is
not the backend error's own message string. -/
theorem backend_error_message_counterexample :
    SetSettings appSetErr idUser "rid"
        (.settingsBody ⟨"my://connection.string"⟩) =
      ⟨⟨500, .errorEnvelope "Internal Server Error" "rid"⟩,
        [.setSettings "123456789012345678901234" ⟨"my://connection.string"⟩], []⟩ ∧
    ("Internal Server Error" : String) ≠ "internal error" :=
  ⟨by decide, by decide⟩

/-- C3 amended: on every management route — settings reads and writes and all
five device routes — a request whose backend operation fails is answered 500
with the fixed message `http.StatusText(500) = "Internal Server Error"` in the
envelope; the backend error's message is not echoed.  The hypotheses make
every backend operation of the route's tenant and device fail, the body is the
route's well-bound body, and the conclusion also records that a backend call
was indeed attempted. -/
theorem mgmt_backend_error_fixed_message (app : App) (r : MgmtRoute) (id : Identity)
    (rid : String) (s : Settings) (p deviceId : String) (e1 e2 e3 e4 : String)
    (hu : id.isUser = true) (hv : Settings.validate s = none)
    (hset : app.setSettings id.tenant s = some e1)
    (hget : app.getSettings id.tenant = .error e2)
    (hread : ∀ opName, app.deviceRead opName id.tenant deviceId = .error e3)
    (hwrite : ∀ opName, app.deviceWrite opName id.tenant deviceId p = .error e4) :
    (mgmtDispatch app r id rid (boundBodyFor r s p) deviceId).resp =
      ⟨500, .errorEnvelope internalServerErrorText rid⟩ ∧
    (mgmtDispatch app r id rid (boundBodyFor r s p) deviceId).calls ≠ [] := by
  cases r <;>
    simp [mgmtDispatch, GetSettings, SetSettings, GetDeviceTwin, SetDeviceTwin,
      UpdateDeviceTwin, GetDeviceModules, GetDevice, deviceHandler,
      deviceWriteHandler, boundBodyFor, bindSettings, bindDeviceTwin,
      bindingValidator, validateValidatableValidator.ValidateStruct,
      boundSettings, hu, hv, hset, hget, hread, hwrite]

/-- Evaluation of `mgmt_backend_error_fixed_message` on a backend whose every
management operation fails, at the tested settings write and at a device
write. -/
theorem mgmt_backend_error_fixed_message_witness :
    idUser.isUser = true ∧
    ((mgmtDispatch appBothErr .setSettingsR idUser "rid"
        (boundBodyFor .setSettingsR ⟨"my://connection.string"⟩ "twin") "dev").resp =
      ⟨500, .errorEnvelope internalServerErrorText "rid"⟩ ∧
      (mgmtDispatch appBothErr .setSettingsR idUser "rid"
        (boundBodyFor .setSettingsR ⟨"my://connection.string"⟩ "twin") "dev").calls ≠ []) ∧
    ((mgmtDispatch appBothErr .updateDeviceTwinR idUser "rid"
        (boundBodyFor .updateDeviceTwinR ⟨"my://connection.string"⟩ "twin") "dev").resp =
      ⟨500, .errorEnvelope internalServerErrorText "rid"⟩ ∧
      (mgmtDispatch appBothErr .updateDeviceTwinR idUser "rid"
        (boundBodyFor .updateDeviceTwinR ⟨"my://connection.string"⟩ "twin") "dev").calls ≠ []) :=
  ⟨rfl,
    mgmt_backend_error_fixed_message appBothErr .setSettingsR idUser "rid"
      ⟨"my://connection.string"⟩ "twin" "dev"
      "internal error" "backend down" "backend down" "backend down"
      rfl (by decide) rfl rfl (fun _ => rfl) (fun _ => rfl),
    mgmt_backend_error_fixed_message appBothErr .updateDeviceTwinR idUser "rid"
      ⟨"my://connection.string"⟩ "twin" "dev"
      "internal error" "backend down" "backend down" "backend down"
      rfl (by decide) rfl rfl (fun _ => rfl) (fun _ => rfl)⟩

/-- C4 counterexample: the 503 written by `APIHandler.Health` on a failing
health check (here the backend failure "error" of `TestHealth/"ko"`) has the
body `gin.H{"error": err.Error()}` — it does not carry a `request_id` field,
so not every gateway error response uses the `{error, request_id}` envelope. -/
theorem health_error_envelope_counterexample :
    Health appHealthErr =
      ⟨⟨503, .errorOnly "error"⟩, [.healthCheck], ["health check failed: error"]⟩ ∧
    ((Health appHealthErr).resp.body).hasRequestId = false :=
  ⟨rfl, rfl⟩

/-- C4 amended: every error response of the gateway except the 503 from
`/health` — the 404 of `NoRoute`, the middleware 401, the 403 of every
management route, the 400 of every bind+validate failure (settings and device
writes), and the 500 of every management route whose backend operation
fails — carries the `{error, request_id}` envelope whose `request_id` is the
inbound correlation header when supplied and the generated id otherwise; the
health 503 body carries only the error message. -/
theorem error_responses_request_id (inbound : Option String)
    (gen sub ten e p did : String) (d : Bool) (app : App) (r : MgmtRoute)
    (body : ReqBody) (next : Identity → Outcome)
    (gs : String → Except String Settings) (ss : String → Settings → Option String)
    (dr : String → String → String → Except String String)
    (dw : String → String → String → String → Except String String)
    (hc : Option String) :
    resolveRequestId (some e) gen = e ∧
    resolveRequestId none gen = gen ∧
    ((NoRoute (resolveRequestId inbound gen)).resp.body).requestIdOf =
      some (resolveRequestId inbound gen) ∧
    ((identityMiddleware (resolveRequestId inbound gen) .noHeader next).resp.body).requestIdOf =
      some (resolveRequestId inbound gen) ∧
    ((identityMiddleware (resolveRequestId inbound gen) .badToken next).resp.body).requestIdOf =
      some (resolveRequestId inbound gen) ∧
    ((mgmtDispatch app r ⟨sub, ten, false, d⟩ (resolveRequestId inbound gen)
        body did).resp.body).requestIdOf = some (resolveRequestId inbound gen) ∧
    ((SetSettings app ⟨sub, ten, true, d⟩ (resolveRequestId inbound gen)
        .malformed).resp.body).requestIdOf = some (resolveRequestId inbound gen) ∧
    ((SetDeviceTwin app ⟨sub, ten, true, d⟩ (resolveRequestId inbound gen) did
        .malformed).resp.body).requestIdOf = some (resolveRequestId inbound gen) ∧
    ((UpdateDeviceTwin app ⟨sub, ten, true, d⟩ (resolveRequestId inbound gen) did
        .malformed).resp.body).requestIdOf = some (resolveRequestId inbound gen) ∧
    ((mgmtDispatch
        ⟨hc, fun _ => .error e, fun _ _ => some e, fun _ _ _ => .error e,
          fun _ _ _ _ => .error e⟩
        r ⟨sub, ten, true, d⟩ (resolveRequestId inbound gen)
        (boundBodyFor r ⟨""⟩ p) did).resp.body).requestIdOf =
      some (resolveRequestId inbound gen) ∧
    ((Health ⟨some e, gs, ss, dr, dw⟩).resp.body).hasRequestId = false := by
  refine ⟨rfl, rfl, rfl, rfl, rfl, ?_, rfl, rfl, rfl, ?_, rfl⟩
  · cases r <;>
      simp [mgmtDispatch, GetSettings, SetSettings, GetDeviceTwin, SetDeviceTwin,
        UpdateDeviceTwin, GetDeviceModules, GetDevice, deviceHandler,
        deviceWriteHandler, forbidden, Body.requestIdOf]
  · cases r <;> rfl

/-- C5 counterexample: a connection string of 683 euro signs has at most 2048
characters, and the backend `SetSettings` of `appAllOk` would succeed, yet the
handler answers 400 and never invokes the backend: `validation.Length`
measures the UTF-8 byte length (2049 here), not the character count. -/
theorem setSettings_charlen_counterexample :
    multibyteSettings.connectionString.length ≤ 2048 ∧
    appAllOk.setSettings idUser.tenant multibyteSettings = none ∧
    SetSettings appAllOk idUser "rid" (.settingsBody multibyteSettings) =
      ⟨⟨400, .errorEnvelope
          "malformed request body: connection_string: the length must be no more than 2048."
          "rid"⟩, [], []⟩ :=
  ⟨by simp [multibyteSettings, String.length], rfl, by decide⟩

/-- C5 amended: an authorized `PUT /settings` whose `connection_string` is at
most 2048 UTF-8 bytes long (including the empty string) passes validation, the
backend `SetSettings` is invoked, and the response is 204 with empty body
exactly when that call returns no error. -/
theorem setSettings_bytelen_contract (app : App) (id : Identity) (rid : String)
    (s : Settings) (hu : id.isUser = true)
    (hb : s.connectionString.utf8ByteSize ≤ 2048) :
    ((SetSettings app id rid (.settingsBody s)).resp = ⟨204, .empty⟩ ↔
      app.setSettings id.tenant s = none) ∧
    (SetSettings app id rid (.settingsBody s)).calls = [.setSettings id.tenant s] := by
  have hv : bindSettings (.settingsBody s) = .ok s := by
    simp [bindSettings, bindingValidator, validateValidatableValidator.ValidateStruct,
      boundSettings, Settings.validate, ruleLenLte2048, hb]
  cases h : app.setSettings id.tenant s with
  | none => simp [SetSettings, hu, hv, h]
  | some e => simp [SetSettings, hu, hv, h]

/-- Evaluation of `setSettings_bytelen_contract` on the connection string of
the test `TestSetSettings/"ok"`. -/
theorem setSettings_bytelen_contract_witness :
    idUser.isUser = true ∧
    (Settings.mk "my://connection.string").connectionString.utf8ByteSize ≤ 2048 ∧
    (((SetSettings appAllOk idUser "rid"
          (.settingsBody ⟨"my://connection.string"⟩)).resp = ⟨204, .empty⟩ ↔
        appAllOk.setSettings idUser.tenant ⟨"my://connection.string"⟩ = none) ∧
      (SetSettings appAllOk idUser "rid"
          (.settingsBody ⟨"my://connection.string"⟩)).calls =
        [.setSettings idUser.tenant ⟨"my://connection.string"⟩]) :=
  ⟨rfl, by decide,
    setSettings_bytelen_contract appAllOk idUser "rid" ⟨"my://connection.string"⟩
      rfl (by decide)⟩

/-- C6: the registered framework validator dispatches on the
`Validate() error` interface: whenever the bound payload provides its own
check, that check is what the validator returns — in particular a bound
`Settings` is validated by `Settings.Validate` — and there is no underlying
generic engine. -/
theorem validator_prefers_validatable (o : BoundObject) (f : Unit → Option String)
    (s : Settings) (h : o.selfValidate = some f) :
    bindingValidator o = f () ∧
    bindingValidator (boundSettings s) = Settings.validate s ∧
    validateValidatableValidator.Engine = none := by
  refine ⟨?_, rfl, rfl⟩
  simp [bindingValidator, validateValidatableValidator.ValidateStruct, h]

/-- Evaluation of `validator_prefers_validatable` on concrete bound objects. -/
theorem validator_prefers_validatable_witness :
    bindingValidator (boundSettings ⟨"my://connection.string"⟩) =
      (fun _ => Settings.validate ⟨"my://connection.string"⟩) () ∧
    bindingValidator (boundSettings ⟨""⟩) = Settings.validate ⟨""⟩ ∧
    validateValidatableValidator.Engine = none :=
  validator_prefers_validatable (boundSettings ⟨"my://connection.string"⟩)
    (fun _ => Settings.validate ⟨"my://connection.string"⟩) ⟨""⟩ rfl

/-- C7: `GET /health` is outside the identity middleware, always performs the
backend `HealthCheck` (bounded by the 10-second `defaultTimeout`), answers 204
with empty body when it succeeds, and on failure answers 503 with the
failure's message in the body while logging the wrapped failure. -/
theorem health_contract (app : App) :
    (app.healthCheck = none →
      Health app = ⟨⟨204, .empty⟩, [.healthCheck], []⟩) ∧
    (∀ e, app.healthCheck = some e →
      Health app =
        ⟨⟨503, .errorOnly e⟩, [.healthCheck], ["health check failed: " ++ e]⟩) ∧
    defaultTimeout = 10 ∧
    routeUsesIdentityMiddleware .health = false := by
  refine ⟨?_, ?_, rfl, rfl⟩
  · intro h
    simp [Health, h]
  · intro e h
    simp [Health, h]

/-- Evaluation of `health_contract` on the two scenarios of `TestHealth`. -/
theorem health_contract_witness :
    Health appAllOk = ⟨⟨204, .empty⟩, [.healthCheck], []⟩ ∧
    Health appHealthErr =
      ⟨⟨503, .errorOnly "error"⟩, [.healthCheck], ["health check failed: " ++ "error"]⟩ :=
  ⟨(health_contract appAllOk).1 rfl, (health_contract appHealthErr).2.1 "error" rfl⟩

/-- C8: an authorized `GET /settings` over the settings store answers 200 with
the zero-value Settings document when nothing is stored for the tenant — not
404 or any error — and 200 with the stored document otherwise. -/
theorem getSettings_zero_value (store : String → Option Settings) (base : App)
    (id : Identity) (rid : String) (hu : id.isUser = true) :
    (store id.tenant = none →
      GetSettings (appOfStore store base) id rid =
        ⟨⟨200, .settingsBody ⟨""⟩⟩, [.getSettings id.tenant], []⟩) ∧
    (∀ v, store id.tenant = some v →
      GetSettings (appOfStore store base) id rid =
        ⟨⟨200, .settingsBody v⟩, [.getSettings id.tenant], []⟩) := by
  constructor
  · intro h
    simp [GetSettings, appOfStore, hu, h]
  · intro v h
    simp [GetSettings, appOfStore, hu, h]

/-- Evaluation of `getSettings_zero_value` on an empty store and on a store
holding the document of `TestGetSettings/"ok"`. -/
theorem getSettings_zero_value_witness :
    idUser.isUser = true ∧
    GetSettings (appOfStore (fun _ => none) appAllOk) idUser "rid" =
      ⟨⟨200, .settingsBody ⟨""⟩⟩, [.getSettings idUser.tenant], []⟩ ∧
    GetSettings (appOfStore (fun _ => some ⟨"my://connection.string"⟩) appAllOk)
        idUser "rid" =
      ⟨⟨200, .settingsBody ⟨"my://connection.string"⟩⟩,
        [.getSettings idUser.tenant], []⟩ :=
  ⟨rfl,
    (getSettings_zero_value (fun _ => none) appAllOk idUser "rid" rfl).1 rfl,
    (getSettings_zero_value (fun _ => some ⟨"my://connection.string"⟩) appAllOk
      idUser "rid" rfl).2 ⟨"my://connection.string"⟩ rfl⟩

/-- C9: the identity middleware wrapped around every management route by
`NewRouter` aborts with the 401 outcome when the Authorization header is
missing or its token does not decode — whatever handler it wraps, that handler
never runs and no backend call happens. -/
theorem identity_middleware_unauthorized (rid : String) (next : Identity → Outcome)
    (app : App) (r : MgmtRoute) (body : ReqBody) (deviceId : String) :
    identityMiddleware rid .noHeader next = unauthorizedOutcome rid ∧
    identityMiddleware rid .badToken next = unauthorizedOutcome rid ∧
    handleManagementRoute app r .noHeader rid body deviceId = unauthorizedOutcome rid ∧
    handleManagementRoute app r .badToken rid body deviceId = unauthorizedOutcome rid ∧
    (unauthorizedOutcome rid).resp.status = 401 ∧
    (unauthorizedOutcome rid).calls = [] ∧
    routeUsesIdentityMiddleware (.mgmt r) = true :=
  ⟨rfl, rfl, rfl, rfl, rfl, rfl, rfl⟩

/-- C10: a bound payload that does not provide its own `Validate() error`
passes the registered validator unconditionally — `ValidateStruct` returns nil
and there is no generic structural fallback. -/
theorem validator_no_fallback (o : BoundObject) (h : o.selfValidate = none) :
    bindingValidator o = none := by
  simp [bindingValidator, validateValidatableValidator.ValidateStruct, h]

/-- Evaluation of `validator_no_fallback` on a payload without a `Validate`
method. -/
theorem validator_no_fallback_witness :
    bindingValidator ⟨none⟩ = none :=
  validator_no_fallback ⟨none⟩ rfl
